import Mathlib

/-!
Verification development for the cross-chain token verification engine.

Shallow embedding of the pure core of the repository:
`tokenAnalyzer.ts` (risk scoring, risk-level mapping, ownership and
holder-distribution analysis), the selector extractor and standard
classifier (`tokenSecutiryCheck` module and the enhanced RPC client),
`multiChainVerifier.ts` (cross-chain orchestration) and the
`verificationEngine` module (decision policy and TTL cache).

Modelling conventions:
- JavaScript numbers used for percentages are modelled as rationals;
  the comparisons performed by the code (`> 50`, `> 80`, ...) are far
  from any rounding boundary, so this is faithful for the inputs the
  claims are about.  Scores are integers in the source and are
  modelled as `Int`.
- Asynchronous collaborator calls (RPC / explorer) are modelled as
  explicit inputs: a value of type `Except String _` stands for a call
  that either returns data or throws.
- Display-only string rendering (`formatAnalysisResult`, ISO
  timestamps, `toFixed`) is not part of the embedding; holder
  concentration findings are modelled as a tagged type carrying the
  percentage that the source interpolates into the message.
-/

set_option maxRecDepth 40000

/-- Risk level classification, `"LOW" | "MEDIUM" | "HIGH" | "CRITICAL"` in the source. -/
inductive RiskLevel where
  | LOW
  | MEDIUM
  | HIGH
  | CRITICAL
deriving Repr, DecidableEq

/-- Token standard detection result (`TokenStandardAnalysis` in `tokenAnalyzer.ts`). -/
structure TokenStandardAnalysis where
  isERC20 : Bool
  isERC721 : Bool
  isERC1155 : Bool
  detectedType : String
  functionSelectors : List String
deriving Repr, DecidableEq

/-- Ownership analysis result (`OwnershipAnalysis` in `tokenAnalyzer.ts`). -/
structure OwnershipAnalysis where
  owner : Option String
  ownerLabel : Option String
  isMultisig : Bool
  isProxy : Bool
  proxyImplementation : Option String
  ownershipRisks : List String
deriving Repr, DecidableEq

/-- Top holder record (the `topHolder` field of `HolderDistributionAnalysis`). -/
structure TopHolderInfo where
  address : String
  percentage : ℚ
deriving Repr, DecidableEq

/-- Holder concentration findings.  The source pushes human-readable strings that
interpolate the percentage (`toFixed(2)`); the embedding keeps the finding kind
and the exact percentage instead of the rendered text. -/
inductive ConcFinding where
  | extremeTop1 (pct : ℚ)
  | highTop1 (pct : ℚ)
  | top5Concentrated (pct : ℚ)
  | top10Centralized (pct : ℚ)
  | cannotAnalyze
  | analysisFailed
deriving Repr, DecidableEq

/-- Holder distribution analysis result (`HolderDistributionAnalysis` in `tokenAnalyzer.ts`). -/
structure HolderDistributionAnalysis where
  totalHolders : Nat
  topHolder : Option TopHolderInfo
  top5HoldersCombined : ℚ
  top10HoldersCombined : ℚ
  concentrationRisks : List ConcFinding
  isHighlyConcentrated : Bool
deriving Repr, DecidableEq

/-- Security risk detection result (`RiskDetectionResult` in `tokenAnalyzer.ts`). -/
structure RiskDetectionResult where
  hasSelfdestruct : Bool
  hasMinting : Bool
  isPausable : Bool
  hasBlacklist : Bool
  proxyPatterns : List String
  unverifiedCode : Bool
  risks : List String
  riskCount : Nat
deriving Repr, DecidableEq

/-- Aggregate per-chain analysis (`TokenAnalysisResult` in `tokenAnalyzer.ts`).
The ISO timestamp is kept as an opaque string. -/
structure TokenAnalysisResult where
  tokenAddress : String
  chainId : Nat
  analysisTimestamp : String
  standardAnalysis : TokenStandardAnalysis
  ownershipAnalysis : OwnershipAnalysis
  holderAnalysis : HolderDistributionAnalysis
  riskAnalysis : RiskDetectionResult
  overallScore : Int
  riskLevel : RiskLevel
  recommendations : List String
  error : Option String := none
deriving Repr, DecidableEq

/-- Clamp of the score to `[0, 100]`, the `Math.max(0, Math.min(100, score))`
at the end of `scoreTokenRisk`. -/
def clampScore (s : Int) : Int :=
  max 0 (min 100 s)

/-- Guarded adjustment: the statement form `if (cond) score += k` used
throughout `scoreTokenRisk` (subtractions pass a negative `k`). -/
def applyIf (c : Prop) [Decidable c] (k x : Int) : Int :=
  if c then x + k else x

theorem applyIf_eq (c : Prop) [Decidable c] (k x : Int) :
    applyIf c k x = x + (if c then k else 0) := by
  unfold applyIf
  split <;> simp

/-- Risk scorer (`scoreTokenRisk` in `tokenAnalyzer.ts`, lines 376-408).
Starts at 100 and applies the fixed adjustments in source order. -/
def scoreTokenRisk (a : TokenAnalysisResult) : Int :=
  let score : Int := 100
  let score := score - (a.ownershipAnalysis.ownershipRisks.length : Int) * 5
  let score := applyIf a.ownershipAnalysis.isMultisig 10 score
  let score := applyIf a.ownershipAnalysis.isProxy (-15) score
  let score := applyIf a.holderAnalysis.isHighlyConcentrated (-20) score
  let score := applyIf (2 < a.holderAnalysis.concentrationRisks.length) (-10) score
  let score := applyIf a.riskAnalysis.unverifiedCode (-20) score
  let score := applyIf a.riskAnalysis.hasSelfdestruct (-15) score
  let score := applyIf a.riskAnalysis.hasMinting (-10) score
  let score := applyIf a.riskAnalysis.isPausable (-10) score
  let score := applyIf a.riskAnalysis.hasBlacklist (-10) score
  let score := applyIf (0 < a.riskAnalysis.proxyPatterns.length) (-5) score
  let score := score - min ((a.riskAnalysis.riskCount : Int) * 2) 30
  let score := applyIf a.standardAnalysis.isERC20 5 score
  clampScore score

/-- Risk-level mapping (`getRiskLevel` in `tokenAnalyzer.ts`, lines 413-418). -/
def getRiskLevel (score : Int) : RiskLevel :=
  if 80 ≤ score then RiskLevel.LOW
  else if 60 ≤ score then RiskLevel.MEDIUM
  else if 40 ≤ score then RiskLevel.HIGH
  else RiskLevel.CRITICAL

/-- Severity order on risk levels, used to state that `getRiskLevel` is
antitone in the score: a higher score never yields a more severe level. -/
def severityRank : RiskLevel → Nat
  | RiskLevel.LOW => 0
  | RiskLevel.MEDIUM => 1
  | RiskLevel.HIGH => 2
  | RiskLevel.CRITICAL => 3

theorem clampScore_nonneg (s : Int) : 0 ≤ clampScore s := by
  unfold clampScore
  omega

theorem clampScore_le_100 (s : Int) : clampScore s ≤ 100 := by
  unfold clampScore
  omega

/-- C2: `scoreTokenRisk` returns 100 with exactly the fixed adjustments of the
claim applied (−5 per ownership risk, +10 multisig, −15 proxy, −20 concentrated,
−10 if more than 2 concentration findings, −20 unverified, −15 self-destruct,
−10 each for minting / pausable / blacklist, −5 if any proxy pattern,
−min(riskCount·2, 30), +5 if ERC-20), clamped to `[0, 100]` at the end;
in particular every returned score lies between 0 and 100. -/
theorem c2_scoreTokenRisk_fixed_adjustments (a : TokenAnalysisResult) :
    scoreTokenRisk a =
      clampScore (100
        - (a.ownershipAnalysis.ownershipRisks.length : Int) * 5
        + (if a.ownershipAnalysis.isMultisig then 10 else 0)
        - (if a.ownershipAnalysis.isProxy then 15 else 0)
        - (if a.holderAnalysis.isHighlyConcentrated then 20 else 0)
        - (if 2 < a.holderAnalysis.concentrationRisks.length then 10 else 0)
        - (if a.riskAnalysis.unverifiedCode then 20 else 0)
        - (if a.riskAnalysis.hasSelfdestruct then 15 else 0)
        - (if a.riskAnalysis.hasMinting then 10 else 0)
        - (if a.riskAnalysis.isPausable then 10 else 0)
        - (if a.riskAnalysis.hasBlacklist then 10 else 0)
        - (if 0 < a.riskAnalysis.proxyPatterns.length then 5 else 0)
        - min ((a.riskAnalysis.riskCount : Int) * 2) 30
        + (if a.standardAnalysis.isERC20 then 5 else 0))
    ∧ 0 ≤ scoreTokenRisk a ∧ scoreTokenRisk a ≤ 100 := by
  refine ⟨?_, ?_, ?_⟩
  · simp only [scoreTokenRisk, applyIf_eq]
    congr 1
    have hneg : ∀ (c : Prop) [Decidable c] (k : Int),
        (if c then -k else 0) = -(if c then k else 0) := by
      intro c _ k
      split <;> simp
    simp only [hneg]
    ring
  · exact clampScore_nonneg _
  · exact clampScore_le_100 _

/-- C3: `getRiskLevel` is the four-breakpoint step function (≥80 LOW,
[60,80) MEDIUM, [40,60) HIGH, <40 CRITICAL), it is antitone in the score,
and 85 → LOW, 65 → MEDIUM, 45 → HIGH, 10 → CRITICAL. -/
theorem c3_getRiskLevel_step_function :
    (∀ s : Int,
      (80 ≤ s → getRiskLevel s = RiskLevel.LOW)
      ∧ (60 ≤ s ∧ s < 80 → getRiskLevel s = RiskLevel.MEDIUM)
      ∧ (40 ≤ s ∧ s < 60 → getRiskLevel s = RiskLevel.HIGH)
      ∧ (s < 40 → getRiskLevel s = RiskLevel.CRITICAL))
    ∧ (∀ s t : Int, s ≤ t → severityRank (getRiskLevel t) ≤ severityRank (getRiskLevel s))
    ∧ getRiskLevel 85 = RiskLevel.LOW
    ∧ getRiskLevel 65 = RiskLevel.MEDIUM
    ∧ getRiskLevel 45 = RiskLevel.HIGH
    ∧ getRiskLevel 10 = RiskLevel.CRITICAL := by
  refine ⟨?_, ?_, by decide, by decide, by decide, by decide⟩
  · intro s
    refine ⟨?_, ?_, ?_, ?_⟩ <;> (intro h; unfold getRiskLevel; split_ifs <;> first | rfl | omega)
  · intro s t hst
    unfold getRiskLevel
    split_ifs <;> simp [severityRank] <;> omega

/-- Witness for C3 at concrete scores. -/
theorem c3_getRiskLevel_step_function_witness :
    getRiskLevel 85 = RiskLevel.LOW ∧ getRiskLevel 10 = RiskLevel.CRITICAL :=
  ⟨(c3_getRiskLevel_step_function.1 85).1 (by decide),
   (c3_getRiskLevel_step_function.1 10).2.2.2 (by decide)⟩

/-- Substring test on character lists, the JavaScript `haystack.includes(pat)`
(scans every suffix for the pattern as a prefix). -/
def strContainsCore (pat : List Char) : List Char → Bool
  | [] => decide (pat = [])
  | c :: tl => pat.isPrefixOf (c :: tl) || strContainsCore pat tl

/-- JavaScript `s.includes(pat)` on strings. -/
def strContains (s pat : String) : Bool :=
  strContainsCore pat.data s.data

/-- Accumulator step of the source's dedup-on-push idiom:
`if (!acc.includes(s)) acc.push(s)`. -/
def pushUnique (acc : List String) (s : String) : List String :=
  if acc.contains s then acc else acc ++ [s]

/-- Deduplication preserving first-seen order (the `new Set(...)` /
`includes`-guarded push used by the selector extractor and classifier). -/
def dedupFirst (l : List String) : List String :=
  l.foldl pushUnique []

theorem mem_foldl_pushUnique (xs : List String) (acc : List String) (a : String)
    (h : a ∈ acc) : a ∈ xs.foldl pushUnique acc := by
  induction xs generalizing acc with
  | nil => exact h
  | cons x xs ih =>
    apply ih
    unfold pushUnique
    split
    · exact h
    · exact List.mem_append_left _ h

theorem nodup_foldl_pushUnique (xs : List String) (acc : List String)
    (h : acc.Nodup) : (xs.foldl pushUnique acc).Nodup := by
  induction xs generalizing acc with
  | nil => exact h
  | cons x xs ih =>
    apply ih
    unfold pushUnique
    split
    · exact h
    · rename_i hnm
      rw [← List.concat_eq_append]
      exact List.Nodup.concat (by simpa using hnm) h

theorem dedupFirst_nodup (l : List String) : (dedupFirst l).Nodup :=
  nodup_foldl_pushUnique l [] List.nodup_nil

theorem mem_dedupFirst_head (a : String) (l : List String) :
    a ∈ dedupFirst (a :: l) := by
  unfold dedupFirst
  simp only [List.foldl_cons]
  apply mem_foldl_pushUnique
  unfold pushUnique
  simp

/-- Hexadecimal digit test, the character class `[a-fA-F0-9]` of the
selector-extraction regex. -/
def isHexChar (c : Char) : Bool :=
  (decide ('0' ≤ c) && decide (c ≤ '9'))
  || (decide ('a' ≤ c) && decide (c ≤ 'f'))
  || (decide ('A' ≤ c) && decide (c ≤ 'F'))

/-- Selector rendering: `"0x" + match.slice(2)` for a `63`-prefixed match. -/
def selOf (a b c d e f g h : Char) : String :=
  String.mk ['0', 'x', a, b, c, d, e, f, g, h]

/-- Greedy left-to-right non-overlapping scan for `/63[a-fA-F0-9]{8}/g`
(`hex.match(regex)` in `extractFunctionSelectors`): on a match the scan
resumes after the 10 consumed characters, on a failure it advances by one. -/
def scanSelFuel (fuel : Nat) (l : List Char) : List String :=
  match fuel, l with
  | 0, _ => []
  | _ + 1, [] => []
  | fuel + 1, c :: tl =>
    match tl with
    | d :: h1 :: h2 :: h3 :: h4 :: h5 :: h6 :: h7 :: h8 :: tl2 =>
      if c = '6' && d = '3' && isHexChar h1 && isHexChar h2 && isHexChar h3
          && isHexChar h4 && isHexChar h5 && isHexChar h6 && isHexChar h7
          && isHexChar h8 then
        selOf h1 h2 h3 h4 h5 h6 h7 h8 :: scanSelFuel fuel tl2
      else
        scanSelFuel fuel tl
    | _ => scanSelFuel fuel tl

/-- Entry point of the scan: the fuel (one unit per character position, while a
match consumes ten characters) never runs out before the list does. -/
def scanSel (l : List Char) : List String :=
  scanSelFuel l.length l

/-- Removal of a leading `0x`, the `bytecode.replace(/^0x/, "")`. -/
def strip0x : List Char → List Char
  | '0' :: 'x' :: rest => rest
  | l => l

/-- Selector extractor (`extractFunctionSelectors`, `part_001` lines 245-261):
PUSH4 (`63`) operands as `0x`-prefixed selectors, deduplicated, first-seen order. -/
def extractFunctionSelectors (bytecode : String) : List String :=
  dedupFirst (scanSel (strip0x bytecode.data))

/-- Reference ERC-20 signatures (`ERC20_FUNCTIONS` of the security-check module). -/
def ERC20_FUNCTIONS : List String :=
  ["totalSupply()", "balanceOf(address)", "transfer(address,uint256)",
   "transferFrom(address,address,uint256)", "approve(address,uint256)",
   "allowance(address,address)"]

/-- Reference ERC-721 signatures (`ERC721_FUNCTIONS`). -/
def ERC721_FUNCTIONS : List String :=
  ["balanceOf(address)", "ownerOf(uint256)", "transferFrom(address,address,uint256)",
   "safeTransferFrom(address,address,uint256)", "approve(address,uint256)",
   "setApprovalForAll(address,bool)", "isApprovedForAll(address,address)",
   "getApproved(uint256)"]

/-- Reference ERC-1155 signatures (`ERC1155_FUNCTIONS`). -/
def ERC1155_FUNCTIONS : List String :=
  ["balanceOf(address,uint256)", "balanceOfBatch(address[],uint256[])",
   "setApprovalForAll(address,bool)", "isApprovedForAll(address,address)",
   "safeTransferFrom(address,address,uint256,uint256,bytes)",
   "safeBatchTransferFrom(address,address,uint256[],uint256[],bytes)"]

/-- JavaScript `fn.slice(0, 10)`. -/
def jsSlice10 (s : String) : String :=
  String.mk (s.data.take 10)

/-- JavaScript `Math.round` on a non-negative rational: round half toward
positive infinity.  The source computes the quotient in binary floating
point; the quotients that occur (multiples of one third) are never within
float error of a rounding boundary, so the rational model is faithful. -/
def jsRound (q : ℚ) : Int :=
  ⌊q + 1 / 2⌋

/-- Count of reference signatures matched by the extracted selectors, the
`REF.filter(fn => selectors.some(sel => sel.includes(fn.slice(0, 10)))).length`
pattern of `detectTokenStandard` in the security-check module. -/
def standardMatchCount (ref : List String) (selectors : List String) : Nat :=
  (ref.filter (fun fn => selectors.any (fun sel => strContains sel (jsSlice10 fn)))).length

/-- Confidence of the classifier:
`Math.round((detectedCount / Math.min(totalFunctions, 20)) * 100)` with
`totalFunctions = new Set(all reference signatures).size` and
`detectedCount = new Set(selectors).size`. -/
def classifierConfidence (selectors : List String) : Int :=
  let totalFunctions := (dedupFirst (ERC20_FUNCTIONS ++ ERC721_FUNCTIONS ++ ERC1155_FUNCTIONS)).length
  let detectedCount := (dedupFirst selectors).length
  jsRound ((detectedCount : ℚ) / (min (totalFunctions : ℚ) 20) * 100)

/-- Result of the looser classifier (`TokenStandardDetectionResult` in the
security-check module). -/
structure TokenStandardDetectionResult where
  isErc20 : Bool
  isErc721 : Bool
  isErc1155 : Bool
  confidence : Int
  detectedFunctions : List String
  missingFunctions : List String
deriving Repr, DecidableEq

/-- Looser standard classifier (`detectTokenStandard`, `part_001` lines 193-243):
threshold 4 matches per reference set, confidence from distinct selector count. -/
def detectTokenStandard (bytecode : String) : TokenStandardDetectionResult :=
  if bytecode = "" ∨ bytecode = "0x" then
    { isErc20 := false, isErc721 := false, isErc1155 := false, confidence := 0,
      detectedFunctions := [], missingFunctions := [] }
  else
    let selectors := extractFunctionSelectors bytecode
    { isErc20 := decide (4 ≤ standardMatchCount ERC20_FUNCTIONS selectors),
      isErc721 := decide (4 ≤ standardMatchCount ERC721_FUNCTIONS selectors),
      isErc1155 := decide (4 ≤ standardMatchCount ERC1155_FUNCTIONS selectors),
      confidence := classifierConfidence selectors,
      detectedFunctions := selectors,
      missingFunctions := ERC20_FUNCTIONS.filter
        (fun fn => !selectors.any (fun sel => strContains sel (jsSlice10 fn))) }

/-- Reference ERC-20 selector constants of the enhanced RPC client
(`ERC20_SELECTORS`, object-entry order). -/
def ERC20_SELECTOR_VALUES : List String :=
  ["0x18160ddd", "0x70a08231", "0xa9059cbb", "0x23b872dd", "0x095ea7b3",
   "0xdd62ed3e", "0x06fdde03", "0x95d89b41", "0x313ce567"]

/-- Reference ERC-721 selector constants (`ERC721_SELECTORS`). -/
def ERC721_SELECTOR_VALUES : List String :=
  ["0x6352211e", "0x70a08231", "0x42842e0e", "0xa22cb465", "0xe985e9c5",
   "0x095ea7b3", "0x081812fc"]

/-- Reference ERC-1155 selector constants (`ERC1155_SELECTORS`). -/
def ERC1155_SELECTOR_VALUES : List String :=
  ["0x00fdd58e", "0x4e1273f4", "0xa22cb465", "0xe985e9c5", "0xf242432a",
   "0x2eb2c2d6"]

/-- JavaScript `s.toLowerCase()` (ASCII inputs only in this code base). -/
def jsToLower (s : String) : String :=
  String.mk (s.data.map Char.toLower)

/-- Result of the strict classifier (`ContractFunctionSignatures` in the
enhanced RPC client). -/
structure ContractFunctionSignatures where
  hasERC20 : Bool
  hasERC721 : Bool
  hasERC1155 : Bool
  selectors : List String
deriving Repr, DecidableEq

/-- Strict standard classifier (`RPCClient.detectTokenStandard`, `part_000`
lines 316-365), given the fetched bytecode's `isContract` flag and its hex
string: substring matches of the selector constants, thresholds 6 / 5 / 4. -/
def rpcDetectTokenStandard (isContract : Bool) (bytecode : String) : ContractFunctionSignatures :=
  if !isContract then
    { hasERC20 := false, hasERC721 := false, hasERC1155 := false, selectors := [] }
  else
    let hex := jsToLower bytecode
    let selectors := ERC20_SELECTOR_VALUES.filter (fun selector => strContains hex (jsToLower selector))
    let erc20Matches := (ERC20_SELECTOR_VALUES.filter (fun s => selectors.contains (jsToLower s))).length
    let erc721Matches := (ERC721_SELECTOR_VALUES.filter (fun s => strContains hex (jsToLower s))).length
    let erc1155Matches := (ERC1155_SELECTOR_VALUES.filter (fun s => strContains hex (jsToLower s))).length
    { hasERC20 := decide (6 ≤ erc20Matches),
      hasERC721 := decide (5 ≤ erc721Matches),
      hasERC1155 := decide (4 ≤ erc1155Matches),
      selectors := selectors }

/-- Push of the ERC-20 `transfer` selector, the characters `63a9059cbb`. -/
def transferPush : List Char :=
  ['6', '3', 'a', '9', '0', '5', '9', 'c', 'b', 'b']

/-- Selector of ERC-20 `transfer`. -/
def transferSel : String := "0xa9059cbb"

/-- Substring `63a9059cbb` as a string. -/
def transferSub : String := "63a9059cbb"

/-- Bytecode containing `63a9059cbb` whose leading `63` is consumed by an
earlier overlapping match of the extraction regex. -/
def c7Bytecode : String := "6300000063a9059cbb"

/-- Selector extracted from `c7Bytecode` instead of the transfer selector. -/
def maskedSel : String := "0x00000063"

/-- C7 counterexample: `c7Bytecode` contains the substring `63a9059cbb`, yet
the extractor returns only `0x00000063` — the greedy non-overlapping regex
scan consumes the second `63` as operand characters of the first match, so
`0xa9059cbb` is not extracted. -/
theorem c7_counterexample_overlap :
    strContains c7Bytecode transferSub = true
    ∧ extractFunctionSelectors c7Bytecode = [maskedSel]
    ∧ (extractFunctionSelectors c7Bytecode).contains transferSel = false := by
  refine ⟨by decide, by decide, by decide⟩

/-- C7 (amended): the extractor is a pure function of the bytecode returning
deduplicated `0x`-prefixed selectors in first-seen order of the greedy
non-overlapping matches of `63` followed by 8 hex digits; an occurrence of
`63a9059cbb` yields `0xa9059cbb` when its leading `63` is not consumed inside
an earlier overlapping match — in particular whenever it starts the bytecode. -/
theorem c7_extractFunctionSelectors_amended :
    (∀ bytecode : String, (extractFunctionSelectors bytecode).Nodup)
    ∧ ∀ rest : List Char,
        transferSel ∈ extractFunctionSelectors (String.mk (transferPush ++ rest)) := by
  constructor
  · intro bytecode
    exact dedupFirst_nodup _
  · intro rest
    show transferSel ∈ dedupFirst (scanSel (strip0x (transferPush ++ rest)))
    have h2 : scanSel (strip0x (transferPush ++ rest))
        = transferSel :: scanSelFuel (rest.length + 9) rest := rfl
    rw [h2]
    exact mem_dedupFirst_head _ _

/-- Bytecode whose PUSH4 operands are exactly the six core ERC-20 selectors
(`totalSupply`, `balanceOf`, `transfer`, `transferFrom`, `approve`,
`allowance`) and nothing else. -/
def erc20SixPushBytecode : String :=
  "6318160ddd6370a0823163a9059cbb6323b872dd63095ea7b363dd62ed3e"

/-- Input containing the six core ERC-20 selector constants literally (in the
`0x`-prefixed form the strict classifier searches for) and no other reference
selector. -/
def erc20SixLiteralBytecode : String :=
  "0x18160ddd0x70a082310xa9059cbb0x23b872dd0x095ea7b30xdd62ed3e"

/-- Expected extracted selector list of `erc20SixPushBytecode`. -/
def sixCoreSelectors : List String :=
  ["0x18160ddd", "0x70a08231", "0xa9059cbb", "0x23b872dd", "0x095ea7b3", "0xdd62ed3e"]

/-- C5 evaluation: on a selector set consisting of exactly the six ERC-20
reference selectors and none of the ERC-721/ERC-1155-specific ones, the strict
classifier (`RPCClient.detectTokenStandard`) reports ERC-20 and rejects the
other standards, but the looser classifier (`detectTokenStandard` of the
security-check module) returns `isErc20 = false`: it compares the extracted
hex selector strings against signature-text prefixes (`fn.slice(0, 10)`, e.g.
`totalSuppl`), which cannot occur in a hex selector string, so its detection
thresholds are unreachable. -/
theorem c5_classifier_on_erc20_selector_set :
    extractFunctionSelectors erc20SixPushBytecode = sixCoreSelectors
    ∧ (detectTokenStandard erc20SixPushBytecode).isErc20 = false
    ∧ (detectTokenStandard erc20SixPushBytecode).isErc721 = false
    ∧ (detectTokenStandard erc20SixPushBytecode).isErc1155 = false
    ∧ (rpcDetectTokenStandard true erc20SixLiteralBytecode).hasERC20 = true
    ∧ (rpcDetectTokenStandard true erc20SixLiteralBytecode).hasERC721 = false
    ∧ (rpcDetectTokenStandard true erc20SixLiteralBytecode).hasERC1155 = false := by
  refine ⟨by decide, by decide, by decide, by decide, by decide, by decide, by decide⟩

/-- Bytecode with 16 distinct PUSH4 operands. -/
def c10Bytecode : String :=
  "63000000016300000002630000000363000000046300000005630000000663000000076300000008630000000963000000" ++
  "0a630000000b630000000c630000000d630000000e630000000f6300000010"

/-- C10: the classifier's confidence equals
`round(100 · distinctSelectors / min(15, 20))` — the distinct reference
signatures across the three standards number 15 — and it is not clamped
above: sixteen distinct extracted selectors yield confidence 107 > 100. -/
theorem c10_confidence_formula :
    (dedupFirst (ERC20_FUNCTIONS ++ ERC721_FUNCTIONS ++ ERC1155_FUNCTIONS)).length = 15
    ∧ (∀ bytecode : String, (detectTokenStandard bytecode).confidence
        = jsRound (100 * ((dedupFirst (extractFunctionSelectors bytecode)).length : ℚ) / min 15 20))
    ∧ (dedupFirst (extractFunctionSelectors c10Bytecode)).length = 16
    ∧ (detectTokenStandard c10Bytecode).confidence = 107
    ∧ 100 < (detectTokenStandard c10Bytecode).confidence := by
  have htot : (dedupFirst (ERC20_FUNCTIONS ++ ERC721_FUNCTIONS ++ ERC1155_FUNCTIONS)).length = 15 := by
    decide
  have hsel : (dedupFirst (extractFunctionSelectors c10Bytecode)).length = 16 := by
    decide
  have hmin : (min (15:ℚ) 20) = 15 := by norm_num
  have hconf : ∀ bytecode : String, (detectTokenStandard bytecode).confidence
      = jsRound (100 * ((dedupFirst (extractFunctionSelectors bytecode)).length : ℚ) / min 15 20) := by
    intro bytecode
    unfold detectTokenStandard
    split
    · rename_i h
      rcases h with h | h <;> subst h <;>
        · show (0 : Int) = _
          rw [show (dedupFirst (extractFunctionSelectors _)).length = 0 from by decide]
          unfold jsRound
          rw [hmin]
          norm_num
    · show classifierConfidence (extractFunctionSelectors bytecode) = _
      unfold classifierConfidence jsRound
      rw [htot]
      push_cast
      rw [hmin]
      ring_nf
  refine ⟨htot, hconf, hsel, ?_, ?_⟩
  · rw [hconf c10Bytecode, hsel]
    unfold jsRound
    rw [hmin]
    norm_num
  · rw [hconf c10Bytecode, hsel]
    unfold jsRound
    rw [hmin]
    norm_num

/-- Holder record from the explorer (`TokenHolderInfo` of the Etherscan
module); the percentage is the `parseFloat` of `TokenHolderPercentage`. -/
structure TokenHolderInfo where
  tokenHolderAddress : String
  tokenHolderPercentage : ℚ
deriving Repr, DecidableEq

/-- Guarded finding push: `if (cond) { risks.push(f); flag = true }` over the
state (findings so far, concentration flag so far). -/
def addFinding (cond : Prop) [Decidable cond] (f : ConcFinding)
    (st : List ConcFinding × Bool) : List ConcFinding × Bool :=
  if cond then (st.1 ++ [f], true) else st

theorem addFinding_mem_self (cond : Prop) [Decidable cond] (f : ConcFinding)
    (st : List ConcFinding × Bool) (h : cond) : f ∈ (addFinding cond f st).1 := by
  unfold addFinding
  rw [if_pos h]
  simp

theorem addFinding_flag_of_cond (cond : Prop) [Decidable cond] (f : ConcFinding)
    (st : List ConcFinding × Bool) (h : cond) : (addFinding cond f st).2 = true := by
  unfold addFinding
  rw [if_pos h]

theorem addFinding_mem_mono (cond : Prop) [Decidable cond] (f x : ConcFinding)
    (st : List ConcFinding × Bool) (h : x ∈ st.1) : x ∈ (addFinding cond f st).1 := by
  unfold addFinding
  split
  · exact List.mem_append_left _ h
  · exact h

theorem addFinding_flag_mono (cond : Prop) [Decidable cond] (f : ConcFinding)
    (st : List ConcFinding × Bool) (h : st.2 = true) : (addFinding cond f st).2 = true := by
  unfold addFinding
  split
  · rfl
  · exact h

/-- Holder distribution analyzer (`analyzeHolderDistribution`,
`tokenAnalyzer.ts` lines 207-273).  The input is the outcome of the
explorer's `getTokenHolders` call: a thrown error yields the degraded
`analysisFailed` record, an empty list the `cannotAnalyze` record, and a
non-empty list the threshold analysis of the claim. -/
def analyzeHolderDistribution (fetched : Except String (List TokenHolderInfo)) :
    HolderDistributionAnalysis :=
  match fetched with
  | Except.error _ =>
    { totalHolders := 0, topHolder := none, top5HoldersCombined := 0,
      top10HoldersCombined := 0, concentrationRisks := [ConcFinding.analysisFailed],
      isHighlyConcentrated := false }
  | Except.ok [] =>
    { totalHolders := 0, topHolder := none, top5HoldersCombined := 0,
      top10HoldersCombined := 0, concentrationRisks := [ConcFinding.cannotAnalyze],
      isHighlyConcentrated := false }
  | Except.ok (top :: rest) =>
    let holders := top :: rest
    let topPct := top.tokenHolderPercentage
    let top5Percentage := ((holders.take 5).map (fun h => h.tokenHolderPercentage)).sum
    let top10Percentage := (holders.map (fun h => h.tokenHolderPercentage)).sum
    let st1 : List ConcFinding × Bool :=
      if 50 < topPct then ([ConcFinding.extremeTop1 topPct], true)
      else if 30 < topPct then ([ConcFinding.highTop1 topPct], true)
      else ([], false)
    let st2 := addFinding (80 < top5Percentage) (ConcFinding.top5Concentrated top5Percentage) st1
    let st3 := addFinding (95 < top10Percentage) (ConcFinding.top10Centralized top10Percentage) st2
    { totalHolders := holders.length,
      topHolder := some { address := top.tokenHolderAddress, percentage := topPct },
      top5HoldersCombined := top5Percentage,
      top10HoldersCombined := top10Percentage,
      concentrationRisks := st3.1,
      isHighlyConcentrated := st3.2 }

/-- C6: on a non-empty holder list, a top-holder share above 50 adds the
extreme-concentration finding and sets the flag, a share in (30, 50] adds the
high-concentration finding and sets the flag, a top-5 cumulative share above
80 adds its finding and sets the flag, and a top-10 cumulative share above 95
adds its finding and sets the flag (all independently evaluated). -/
theorem c6_holder_concentration_thresholds (top : TokenHolderInfo) (rest : List TokenHolderInfo) :
    (50 < top.tokenHolderPercentage →
      ConcFinding.extremeTop1 top.tokenHolderPercentage
        ∈ (analyzeHolderDistribution (Except.ok (top :: rest))).concentrationRisks
      ∧ (analyzeHolderDistribution (Except.ok (top :: rest))).isHighlyConcentrated = true)
    ∧ (30 < top.tokenHolderPercentage ∧ top.tokenHolderPercentage ≤ 50 →
      ConcFinding.highTop1 top.tokenHolderPercentage
        ∈ (analyzeHolderDistribution (Except.ok (top :: rest))).concentrationRisks
      ∧ (analyzeHolderDistribution (Except.ok (top :: rest))).isHighlyConcentrated = true)
    ∧ (80 < (((top :: rest).take 5).map (fun h => h.tokenHolderPercentage)).sum →
      ConcFinding.top5Concentrated (((top :: rest).take 5).map (fun h => h.tokenHolderPercentage)).sum
        ∈ (analyzeHolderDistribution (Except.ok (top :: rest))).concentrationRisks
      ∧ (analyzeHolderDistribution (Except.ok (top :: rest))).isHighlyConcentrated = true)
    ∧ (95 < ((top :: rest).map (fun h => h.tokenHolderPercentage)).sum →
      ConcFinding.top10Centralized ((top :: rest).map (fun h => h.tokenHolderPercentage)).sum
        ∈ (analyzeHolderDistribution (Except.ok (top :: rest))).concentrationRisks
      ∧ (analyzeHolderDistribution (Except.ok (top :: rest))).isHighlyConcentrated = true) := by
  simp only [analyzeHolderDistribution]
  refine ⟨fun h => ⟨?_, ?_⟩, fun h => ⟨?_, ?_⟩, fun h => ⟨?_, ?_⟩, fun h => ⟨?_, ?_⟩⟩
  · apply addFinding_mem_mono
    apply addFinding_mem_mono
    rw [if_pos h]
    simp
  · apply addFinding_flag_mono
    apply addFinding_flag_mono
    rw [if_pos h]
  · apply addFinding_mem_mono
    apply addFinding_mem_mono
    rw [if_neg (not_lt.mpr h.2), if_pos h.1]
    simp
  · apply addFinding_flag_mono
    apply addFinding_flag_mono
    rw [if_neg (not_lt.mpr h.2), if_pos h.1]
  · apply addFinding_mem_mono
    exact addFinding_mem_self _ _ _ h
  · apply addFinding_flag_mono
    exact addFinding_flag_of_cond _ _ _ h
  · exact addFinding_mem_self _ _ _ h
  · exact addFinding_flag_of_cond _ _ _ h

/-- Top holder of the concrete C6 scenario: 60 percent of supply. -/
def c6top : TokenHolderInfo :=
  { tokenHolderAddress := "0xaaa1", tokenHolderPercentage := 60 }

/-- Remaining holders of the concrete C6 scenario (top-5 cumulative 85). -/
def c6rest : List TokenHolderInfo :=
  [{ tokenHolderAddress := "0xaaa2", tokenHolderPercentage := 10 },
   { tokenHolderAddress := "0xaaa3", tokenHolderPercentage := 5 },
   { tokenHolderAddress := "0xaaa4", tokenHolderPercentage := 5 },
   { tokenHolderAddress := "0xaaa5", tokenHolderPercentage := 5 }]

/-- Witness for C6: top holder at 60 percent and top-5 at 85 percent produce
both findings and set the concentration flag. -/
theorem c6_holder_concentration_thresholds_witness :
    (50:ℚ) < c6top.tokenHolderPercentage
    ∧ ConcFinding.extremeTop1 c6top.tokenHolderPercentage
        ∈ (analyzeHolderDistribution (Except.ok (c6top :: c6rest))).concentrationRisks
    ∧ (80:ℚ) < (((c6top :: c6rest).take 5).map (fun h => h.tokenHolderPercentage)).sum
    ∧ ConcFinding.top5Concentrated (((c6top :: c6rest).take 5).map (fun h => h.tokenHolderPercentage)).sum
        ∈ (analyzeHolderDistribution (Except.ok (c6top :: c6rest))).concentrationRisks
    ∧ (analyzeHolderDistribution (Except.ok (c6top :: c6rest))).isHighlyConcentrated = true := by
  have H := c6_holder_concentration_thresholds c6top c6rest
  have hp : (50:ℚ) < c6top.tokenHolderPercentage := by norm_num [c6top]
  have h5 : (80:ℚ) < (((c6top :: c6rest).take 5).map (fun h => h.tokenHolderPercentage)).sum := by
    norm_num [c6top, c6rest]
  exact ⟨hp, (H.1 hp).1, h5, (H.2.2.1 h5).1, (H.1 hp).2⟩

/-- Contract creation record from the explorer (`getContractCreation`). -/
structure ContractCreationInfo where
  contractAddress : String
  contractCreator : String
  txHash : String
  blockNumber : String
deriving Repr, DecidableEq

/-- Address label record from the explorer (`getAddressLabel`). -/
structure AddressLabelInfo where
  name : String
  label : String
  labelType : String
deriving Repr, DecidableEq

/-- Degradation message when creation info cannot be resolved. -/
def msgUnableCreationInfo : String := "Unable to get contract creation info"

/-- Single-owner / high-centralization risk entry. -/
def msgSingleOwner : String := "Single owner address (high centralization risk)"

/-- Proxy-pattern ownership risk entry. -/
def msgProxyPattern : String := "Uses proxy pattern (upgradeable)"

/-- Null or zero creator risk entry. -/
def msgUnknownOwner : String := "Unknown or null owner"

/-- Degradation message of the ownership analyzer's catch-all path. -/
def msgFailedOwnership : String := "Failed to analyze ownership"

/-- Minimal-proxy bytecode fingerprint checked by the ownership analyzer. -/
def proxyFingerprint : String := "3d82803d3d3d3d363d3d37"

/-- Multisig marker looked for in the owner label. -/
def multisigMarker : String := "Multisig"

/-- Safe marker looked for in the owner label. -/
def safeMarker : String := "Safe"

/-- Zero address constant. -/
def zeroAddress : String := "0x0000000000000000000000000000000000000000"

/-- Ownership analyzer (`analyzeOwnership`, `tokenAnalyzer.ts` lines 128-198).
Inputs are the explorer's creation-info and label lookups and the RPC
bytecode; the outer catch path is `analyzeOwnershipFailed`. -/
def analyzeOwnership (creationInfo : Option ContractCreationInfo)
    (ownerLabel : Option AddressLabelInfo) (bytecode : String) : OwnershipAnalysis :=
  match creationInfo with
  | none =>
    { owner := none, ownerLabel := none, isMultisig := false, isProxy := false,
      proxyImplementation := none, ownershipRisks := [msgUnableCreationInfo] }
  | some ci =>
    let isMultisig :=
      match ownerLabel with
      | some lbl =>
        (lbl.label != "") && (strContains lbl.label multisigMarker || strContains lbl.label safeMarker)
      | none => false
    let isProxy := strContains bytecode proxyFingerprint
    let ownershipRisks : List String := if isProxy then [msgProxyPattern] else []
    let ownershipRisks := if !isMultisig then ownershipRisks ++ [msgSingleOwner] else ownershipRisks
    let ownershipRisks :=
      if ci.contractCreator = "" ∨ ci.contractCreator = zeroAddress then
        ownershipRisks ++ [msgUnknownOwner]
      else
        ownershipRisks
    { owner := some ci.contractCreator,
      ownerLabel :=
        match ownerLabel with
        | some lbl => if lbl.label = "" then none else some lbl.label
        | none => none,
      isMultisig := isMultisig,
      isProxy := isProxy,
      proxyImplementation := none,
      ownershipRisks := ownershipRisks }

/-- Degraded result of the ownership analyzer's catch-all path. -/
def analyzeOwnershipFailed : OwnershipAnalysis :=
  { owner := none, ownerLabel := none, isMultisig := false, isProxy := false,
    proxyImplementation := none, ownershipRisks := [msgFailedOwnership] }

/-- Empty bytecode string. -/
def emptyBytecode : String := ""

/-- C8 counterexample: the degraded ownership results (creation info
unresolved, and the catch-all failure) have `isMultisig = false` but their
risk lists carry only the degradation message — not the single-owner /
high-centralization entry the claim requires. -/
theorem c8_counterexample_degraded :
    (analyzeOwnership none none emptyBytecode).isMultisig = false
    ∧ (analyzeOwnership none none emptyBytecode).ownershipRisks = [msgUnableCreationInfo]
    ∧ ((analyzeOwnership none none emptyBytecode).ownershipRisks.contains msgSingleOwner) = false
    ∧ analyzeOwnershipFailed.isMultisig = false
    ∧ (analyzeOwnershipFailed.ownershipRisks.contains msgSingleOwner) = false := by
  refine ⟨by decide, by decide, by decide, by decide, by decide⟩

/-- C8 (amended): whenever the contract-creation lookup resolves, a result
with `isMultisig = false` carries the single-owner / high-centralization risk
entry; the degraded results (unresolved creation info, analysis failure)
instead carry only their degradation message. -/
theorem c8_single_owner_risk_amended (ci : ContractCreationInfo)
    (ownerLabel : Option AddressLabelInfo) (bytecode : String)
    (h : (analyzeOwnership (some ci) ownerLabel bytecode).isMultisig = false) :
    msgSingleOwner ∈ (analyzeOwnership (some ci) ownerLabel bytecode).ownershipRisks := by
  simp only [analyzeOwnership] at h ⊢
  rw [h]
  simp only [Bool.not_false, if_true]
  split
  · exact List.mem_append_left _ (List.mem_append_right _ (by simp))
  · exact List.mem_append_right _ (by simp)

/-- Concrete creation record for the C8 witness. -/
def c8Creation : ContractCreationInfo :=
  { contractAddress := "0xbbb1", contractCreator := "0xbbb2",
    txHash := "0xbbb3", blockNumber := "100" }

/-- Witness for C8 at a resolved creation record with no multisig label. -/
theorem c8_single_owner_risk_amended_witness :
    (analyzeOwnership (some c8Creation) none emptyBytecode).isMultisig = false
    ∧ msgSingleOwner ∈ (analyzeOwnership (some c8Creation) none emptyBytecode).ownershipRisks :=
  ⟨by decide, c8_single_owner_risk_amended c8Creation none emptyBytecode (by decide)⟩

/-- Wrapped-token record (`WrappedTokenInfo` in `multiChainVerifier.ts`). -/
structure WrappedTokenInfo where
  chain : Nat
  wrappedAddress : String
  bridgeAddress : Option String
  wrapperName : String
deriving Repr, DecidableEq

/-- Per-chain verification record (`ChainVerificationResult` in
`multiChainVerifier.ts`).  The source field `exists` is a Lean keyword and is
embedded as `tokenExists`. -/
structure ChainVerificationResult where
  chainId : Nat
  chainName : String
  tokenAddress : String
  tokenExists : Bool
  analysis : Option TokenAnalysisResult := none
  error : Option String := none
deriving Repr, DecidableEq

/-- Cross-chain aggregate (`CrossChainTokenInfo` in `multiChainVerifier.ts`). -/
structure CrossChainTokenInfo where
  baseTokenAddress : String
  baseChainId : Nat
  chainVerifications : List ChainVerificationResult
  tokensFound : Nat
  verifiedOnChains : Nat
  highRiskOnChains : Nat
  mediumRiskOnChains : Nat
  bridgeIndicators : List String
  wrappedVersions : List WrappedTokenInfo
  recommendations : List String
  analysisTimestamp : String
deriving Repr, DecidableEq

/-- Verification decision (`VerificationDecision` in the verification engine). -/
structure VerificationDecision where
  isSafe : Bool
  canAutomate : Bool
  requiresApproval : Bool
  risks : List String
  reason : String
deriving Repr, DecidableEq

/-- Risk entry for a CRITICAL-rated analysis. -/
def riskMsgCritical : String := "Token rated CRITICAL risk"

/-- Risk entry for a HIGH-rated analysis. -/
def riskMsgHigh : String := "Token rated HIGH risk"

/-- Risk entry for a MEDIUM-rated analysis. -/
def riskMsgMedium : String := "Token rated MEDIUM risk"

/-- Risk entry for an analysis-level error. -/
def msgVerificationError (e : String) : String :=
  "Verification Error: " ++ e

/-- Reason string for an analysis-level error. -/
def reasonCannotVerify (e : String) : String :=
  "Cannot verify token: " ++ e

/-- Risk entry for cross-chain high risk. -/
def msgHighRiskChains (n : Nat) : String :=
  "High risk on " ++ toString n ++ " chain(s)"

/-- Risk entry when the token exists on no network. -/
def msgNotFoundAnyNetwork : String := "Token not found on any network"

/-- Risk entry when the token is verified on no chain. -/
def msgNotVerifiedAnyChain : String := "Not verified on any chain"

/-- Risk entry of the unverified-source override. -/
def msgUnverifiedSource : String := "Unverified contract source code"

/-- Risk entry of the high-concentration override. -/
def msgHighlyConcentrated : String := "Highly concentrated token holdings"

/-- Fallback risk entry of the decision policy. -/
def msgUnableConfidence : String := "Unable to verify token safety with confidence"

/-- Reason for a safe, automatable token. -/
def reasonSafeAuto : String := "Token appears safe for automated transactions"

/-- Reason for a safe token that needs user interaction. -/
def reasonSafeManual : String := "Token is safe but requires user interaction"

/-- Reason for a risky token requiring approval. -/
def reasonRisksApproval : String := "Token has risks and requires approval"

/-- Reason for an unsafe token. -/
def reasonNotSafe : String := "Token is not safe to interact with"

/-- Primary risk-level gate of `makeVerificationDecision`:
(isSafe, canAutomate, requiresApproval, risks pushed). -/
def riskLevelGate : RiskLevel → Bool × Bool × Bool × List String
  | RiskLevel.CRITICAL => (false, false, false, [riskMsgCritical])
  | RiskLevel.HIGH => (false, false, true, [riskMsgHigh])
  | RiskLevel.MEDIUM => (false, false, true, [riskMsgMedium])
  | RiskLevel.LOW => (true, true, false, [])

/-- Cross-chain evaluation block of `makeVerificationDecision`
(lines 552-565): returns the updated (isSafe, risks). -/
def applyCrossChain (cc : Option CrossChainTokenInfo) (isSafe : Bool)
    (risks : List String) : Bool × List String :=
  match cc with
  | none => (isSafe, risks)
  | some c =>
    let st :=
      if 0 < c.highRiskOnChains then (false, risks ++ [msgHighRiskChains c.highRiskOnChains])
      else (isSafe, risks)
    if c.tokensFound = 0 then (false, st.2 ++ [msgNotFoundAnyNetwork])
    else if c.verifiedOnChains = 0 then (false, st.2 ++ [msgNotVerifiedAnyChain])
    else st

/-- Unverified-source override of `makeVerificationDecision` (lines 568-574):
returns the updated (isSafe, canAutomate, risks). -/
def applyUnverifiedOverride (unverified : Bool) (isSafe canAutomate : Bool)
    (risks : List String) : Bool × Bool × List String :=
  if unverified then
    if isSafe then (false, false, risks ++ [msgUnverifiedSource])
    else (isSafe, false, risks)
  else (isSafe, canAutomate, risks)

/-- High-concentration override of `makeVerificationDecision` (lines 576-582):
returns the updated (isSafe, requiresApproval, risks). -/
def applyConcentrationOverride (concentrated : Bool) (isSafe requiresApproval : Bool)
    (risks : List String) : Bool × Bool × List String :=
  if concentrated then
    if isSafe then (false, true, risks ++ [msgHighlyConcentrated])
    else (isSafe, true, risks)
  else (isSafe, requiresApproval, risks)

/-- Decision policy (`makeVerificationDecision`, verification engine lines
506-607). -/
def makeVerificationDecision (analysis : TokenAnalysisResult)
    (crossChainAnalysis : Option CrossChainTokenInfo) : VerificationDecision :=
  match analysis.error with
  | some e =>
    { isSafe := false, canAutomate := false, requiresApproval := false,
      risks := [msgVerificationError e], reason := reasonCannotVerify e }
  | none =>
    let gate := riskLevelGate analysis.riskLevel
    let risks := gate.2.2.2 ++ analysis.riskAnalysis.risks
    let s2 := applyCrossChain crossChainAnalysis gate.1 risks
    let s3 := applyUnverifiedOverride analysis.riskAnalysis.unverifiedCode s2.1 gate.2.1 s2.2
    let s4 := applyConcentrationOverride analysis.holderAnalysis.isHighlyConcentrated s3.1 gate.2.2.1 s3.2.2
    let isSafe := s4.1
    let canAutomate := s3.2.1
    let requiresApproval := s4.2.1
    let risks := s4.2.2
    let risks :=
      if !isSafe && !(risks.contains riskMsgCritical) && !(risks.contains riskMsgHigh)
          && !(risks.contains riskMsgMedium) then
        risks ++ [msgUnableConfidence]
      else risks
    let reason :=
      if isSafe then
        if canAutomate then reasonSafeAuto else reasonSafeManual
      else
        if requiresApproval then reasonRisksApproval else reasonNotSafe
    { isSafe := isSafe, canAutomate := canAutomate, requiresApproval := requiresApproval,
      risks := dedupFirst risks, reason := reason }

theorem applyCrossChain_false (cc : Option CrossChainTokenInfo) (r : List String) :
    (applyCrossChain cc false r).1 = false := by
  cases cc with
  | none => rfl
  | some c =>
    simp only [applyCrossChain]
    split_ifs <;> rfl

theorem applyCrossChain_safe (cc : Option CrossChainTokenInfo) (s : Bool) (r : List String)
    (h : (applyCrossChain cc s r).1 = true) : s = true := by
  cases cc with
  | none => exact h
  | some c =>
    simp only [applyCrossChain] at h
    split_ifs at h
    all_goals simp_all

theorem applyUnverifiedOverride_false (u c : Bool) (r : List String) :
    (applyUnverifiedOverride u false c r).1 = false := by
  unfold applyUnverifiedOverride
  cases u <;> simp

theorem applyUnverifiedOverride_unv (s c : Bool) (r : List String) :
    (applyUnverifiedOverride true s c r).1 = false := by
  unfold applyUnverifiedOverride
  cases s <;> simp

theorem applyUnverifiedOverride_safe (u s c : Bool) (r : List String)
    (h : (applyUnverifiedOverride u s c r).1 = true) : s = true ∧ u = false := by
  unfold applyUnverifiedOverride at h
  cases u <;> cases s <;> simp_all

theorem applyConcentrationOverride_false (k a : Bool) (r : List String) :
    (applyConcentrationOverride k false a r).1 = false := by
  unfold applyConcentrationOverride
  cases k <;> simp

theorem applyConcentrationOverride_conc (s a : Bool) (r : List String) :
    (applyConcentrationOverride true s a r).1 = false := by
  unfold applyConcentrationOverride
  cases s <;> simp

theorem applyConcentrationOverride_safe (k s a : Bool) (r : List String)
    (h : (applyConcentrationOverride k s a r).1 = true) : s = true ∧ k = false := by
  unfold applyConcentrationOverride at h
  cases k <;> cases s <;> simp_all

theorem riskLevelGate_safe (lv : RiskLevel) (h : (riskLevelGate lv).1 = true) :
    lv = RiskLevel.LOW := by
  cases lv <;> simp_all [riskLevelGate]

/-- C1: a decision with `isSafe = true` implies the analysis is LOW-rated,
error-free, source-verified and not highly concentrated; conversely an
analysis error, a non-LOW risk level, unverified code or high concentration
each force `isSafe = false` (the overrides fire even after the LOW gate). -/
theorem c1_decision_isSafe_requires_low (a : TokenAnalysisResult)
    (cc : Option CrossChainTokenInfo) :
    ((makeVerificationDecision a cc).isSafe = true →
        a.riskLevel = RiskLevel.LOW ∧ a.error = none
        ∧ a.riskAnalysis.unverifiedCode = false
        ∧ a.holderAnalysis.isHighlyConcentrated = false)
    ∧ (a.error.isSome → (makeVerificationDecision a cc).isSafe = false)
    ∧ (a.riskLevel ≠ RiskLevel.LOW → (makeVerificationDecision a cc).isSafe = false)
    ∧ (a.riskAnalysis.unverifiedCode = true → (makeVerificationDecision a cc).isSafe = false)
    ∧ (a.holderAnalysis.isHighlyConcentrated = true → (makeVerificationDecision a cc).isSafe = false) := by
  rcases ha : a.error with _ | e
  · refine ⟨?_, ?_, ?_, ?_, ?_⟩
    · intro h
      simp only [makeVerificationDecision, ha] at h
      have h4 := applyConcentrationOverride_safe _ _ _ _ h
      have h3 := applyUnverifiedOverride_safe _ _ _ _ h4.1
      have h2 := applyCrossChain_safe _ _ _ h3.1
      exact ⟨riskLevelGate_safe _ h2, rfl, h3.2, h4.2⟩
    · intro h
      simp at h
    · intro h
      simp only [makeVerificationDecision, ha]
      have hg : (riskLevelGate a.riskLevel).1 = false := by
        cases hl : a.riskLevel <;> simp_all [riskLevelGate]
      rw [hg, applyCrossChain_false, applyUnverifiedOverride_false,
        applyConcentrationOverride_false]
    · intro h
      simp only [makeVerificationDecision, ha]
      rw [h, applyUnverifiedOverride_unv, applyConcentrationOverride_false]
    · intro h
      simp only [makeVerificationDecision, ha]
      rw [h, applyConcentrationOverride_conc]
  · refine ⟨?_, ?_, ?_, ?_, ?_⟩
    · intro h
      simp only [makeVerificationDecision, ha] at h
      exact absurd h (by decide)
    · intro h
      simp only [makeVerificationDecision, ha]
    · intro h
      simp only [makeVerificationDecision, ha]
    · intro h
      simp only [makeVerificationDecision, ha]
    · intro h
      simp only [makeVerificationDecision, ha]

/-- Concrete LOW-rated, verified, unconcentrated analysis for the C1 witness. -/
def c1AnalysisLow : TokenAnalysisResult :=
  { tokenAddress := "0xddd1", chainId := 1, analysisTimestamp := "2024-01-01",
    standardAnalysis :=
      { isERC20 := true, isERC721 := false, isERC1155 := false,
        detectedType := "ERC20", functionSelectors := [] },
    ownershipAnalysis :=
      { owner := none, ownerLabel := none, isMultisig := true, isProxy := false,
        proxyImplementation := none, ownershipRisks := [] },
    holderAnalysis :=
      { totalHolders := 0, topHolder := none, top5HoldersCombined := 0,
        top10HoldersCombined := 0, concentrationRisks := [],
        isHighlyConcentrated := false },
    riskAnalysis :=
      { hasSelfdestruct := false, hasMinting := false, isPausable := false,
        hasBlacklist := false, proxyPatterns := [], unverifiedCode := false,
        risks := [], riskCount := 0 },
    overallScore := 100, riskLevel := RiskLevel.LOW, recommendations := [],
    error := none }

/-- Witness for C1: a LOW analysis with no overrides is decided safe, and the
theorem recovers its risk level from that fact. -/
theorem c1_decision_isSafe_requires_low_witness :
    (makeVerificationDecision c1AnalysisLow none).isSafe = true
    ∧ c1AnalysisLow.riskLevel = RiskLevel.LOW :=
  ⟨by decide, ((c1_decision_isSafe_requires_low c1AnalysisLow none).1 (by decide)).1⟩

/-- Supported chains of the multi-chain verifier (`SUPPORTED_CHAINS`). -/
def SUPPORTED_CHAINS : List (Nat × String) :=
  [(1, "Ethereum Mainnet"), (56, "BSC Mainnet"), (137, "Polygon Mainnet"),
   (8453, "Base Mainnet"), (10, "Optimism"), (42161, "Arbitrum One"),
   (43114, "Avalanche C-Chain"), (250, "Fantom")]

/-- Default chain set, `Object.keys(SUPPORTED_CHAINS)` — JavaScript enumerates
integer-like keys in ascending numeric order. -/
def DEFAULT_CHAIN_IDS : List Nat :=
  [1, 10, 56, 137, 250, 8453, 42161, 43114]

/-- Fallback chain name for unknown chain ids. -/
def chainFallbackName (cid : Nat) : String :=
  "Chain " ++ toString cid

/-- Error string recorded for an unsupported chain. -/
def msgUnsupportedChain : String := "Unsupported chain"

/-- Per-chain step of `analyzeTokenOnMultipleChains` (`multiChainVerifier.ts`
lines 226-270): `analyze` models the `analyzeToken` call, whose thrown-error
case is the `Except.error` branch caught by the source's inner catch — which
records `exists: false` and no error string. -/
def analyzeChainStep (normalizedAddress : String)
    (analyze : Nat → Except String TokenAnalysisResult) (chainId : Nat) :
    ChainVerificationResult :=
  match SUPPORTED_CHAINS.lookup chainId with
  | none =>
    { chainId := chainId, chainName := chainFallbackName chainId,
      tokenAddress := normalizedAddress, tokenExists := false,
      analysis := none, error := some msgUnsupportedChain }
  | some name =>
    match analyze chainId with
    | Except.ok analysis =>
      { chainId := chainId, chainName := name, tokenAddress := normalizedAddress,
        tokenExists := true, analysis := some analysis, error := none }
    | Except.error _ =>
      { chainId := chainId, chainName := name, tokenAddress := normalizedAddress,
        tokenExists := false, analysis := none, error := none }

/-- Fan-out of the per-chain analysis (`analyzeTokenOnMultipleChains`,
`multiChainVerifier.ts` lines 215-274). -/
def analyzeTokenOnMultipleChains (tokenAddress : String) (chainIds : List Nat)
    (analyze : Nat → Except String TokenAnalysisResult) :
    List ChainVerificationResult :=
  chainIds.map (analyzeChainStep (jsToLower tokenAddress) analyze)

/-- Bridge indicator: deployment on several chains. -/
def bridgeDeployedMsg (n : Nat) : String :=
  "Token deployed on " ++ toString n ++ " chains"

/-- Bridge indicator: high risk on some chains. -/
def bridgeHighRiskMsg (n : Nat) : String :=
  "High risk on " ++ toString n ++ " chains"

/-- Bridge indicator: verification status varies. -/
def bridgeVerificationVariesMsg : String :=
  "Verification status varies across chains"

/-- Bridge indicator: several distinct owners. -/
def bridgeMultipleOwnersMsg (n : Nat) : String :=
  "Multiple owner addresses across chains (" ++ toString n ++ ")"

/-- Bridge indicator: concentration on most chains. -/
def bridgeConcentrationMsg : String :=
  "High holder concentration across most chains"

/-- Bridge pattern detection (`detectBridgePatterns`, `multiChainVerifier.ts`
lines 283-334).  The `existingChains / 2` comparison is JavaScript float
division, modelled over the rationals. -/
def detectBridgePatterns (results : List ChainVerificationResult) : List String :=
  let existingChains := (results.filter (fun r => r.tokenExists)).length
  let patterns : List String :=
    if 1 < existingChains then [bridgeDeployedMsg existingChains] else []
  let riskLevels := (results.filterMap (fun r => r.analysis)).map (fun a => a.riskLevel)
  let highRiskCount := (riskLevels.filter (fun l => decide (l = RiskLevel.HIGH))).length
  let criticalCount := (riskLevels.filter (fun l => decide (l = RiskLevel.CRITICAL))).length
  let patterns :=
    if decide (0 < highRiskCount) || decide (0 < criticalCount) then
      patterns ++ [bridgeHighRiskMsg (highRiskCount + criticalCount)]
    else patterns
  let verifiedCount :=
    ((results.filterMap (fun r => r.analysis)).filter
      (fun a => !a.riskAnalysis.unverifiedCode)).length
  let patterns :=
    if decide (verifiedCount < existingChains) && decide (0 < verifiedCount) then
      patterns ++ [bridgeVerificationVariesMsg]
    else patterns
  let owners := (results.filterMap (fun r => r.analysis)).filterMap
    (fun a => a.ownershipAnalysis.owner)
  let uniqueOwners := (dedupFirst owners).length
  let patterns :=
    if 1 < uniqueOwners then patterns ++ [bridgeMultipleOwnersMsg uniqueOwners]
    else patterns
  let concentrations :=
    (results.filter (fun r =>
      match r.analysis with
      | some a => a.holderAnalysis.isHighlyConcentrated
      | none => false)).length
  let patterns :=
    if (existingChains : ℚ) / 2 < (concentrations : ℚ) then
      patterns ++ [bridgeConcentrationMsg]
    else patterns
  patterns

/-- Wrapped-token name patterns (`WRAPPED_TOKEN_PATTERNS`, entry order). -/
def WRAPPED_TOKEN_PATTERN_LIST : List (String × String) :=
  [("W", "Wrapped"), ("wst", "Wrapped Staked"), ("x", "Cross-chain"),
   ("anyCall", "Multichain (AnyCall)"), ("ark", "Ark Bridge"),
   ("stargate", "Stargate")]

/-- Wrapped-token pattern detection (`detectWrappedTokenPattern`). -/
def detectWrappedTokenPattern (tokenName : String) : Option WrappedTokenInfo :=
  let lowerName := jsToLower tokenName
  match WRAPPED_TOKEN_PATTERN_LIST.find? (fun p => strContains lowerName p.1) with
  | some p =>
    some { chain := 0, wrappedAddress := emptyBytecode, bridgeAddress := none,
           wrapperName := p.2 }
  | none => none

/-- Recommendation strings of the cross-chain verifier (the source prefixes
each with an emoji glyph; the glyph is omitted from the embedding). -/
def recHighRisk (n : Nat) : String :=
  "Token rated HIGH or CRITICAL risk on " ++ toString n ++ " chain(s)"

/-- Recommendation: many chains. -/
def recManyChains : String :=
  "Token deployed on many chains - verify legitimacy of all versions"

/-- Recommendation: wrapped versions present. -/
def recWrapped (n : Nat) : String :=
  "Token has " ++ toString n ++ " wrapped version(s) detected"

/-- Recommendation: unverified versions. -/
def recUnverified (n : Nat) : String :=
  toString n ++ " version(s) not verified - increased risk"

/-- Recommendation: no verified versions. -/
def recNoVerified : String := "No verified versions found - do not interact"

/-- Recommendation: bridge token. -/
def recBridge : String := "Potential cross-chain bridge token detected"

/-- Recommendation: not found anywhere. -/
def recNotFound : String := "Token not found on any network"

/-- Recommendation: single chain only. -/
def recSingleChain : String := "Token exists on single chain only"

/-- Recommendation: safe on all verified chains. -/
def recSafeAllChains : String := "Token appears safe on all verified chains"

/-- Cross-chain recommendation generation
(`generateCrossChainRecommendations`, `multiChainVerifier.ts` lines 343-380). -/
def generateCrossChainRecommendations (analysis : CrossChainTokenInfo) : List String :=
  let recs : List String := []
  let recs :=
    if 0 < analysis.highRiskOnChains then recs ++ [recHighRisk analysis.highRiskOnChains]
    else recs
  let recs := if 4 < analysis.tokensFound then recs ++ [recManyChains] else recs
  let recs :=
    if 0 < analysis.wrappedVersions.length then
      recs ++ [recWrapped analysis.wrappedVersions.length]
    else recs
  let recs :=
    if analysis.verifiedOnChains < analysis.tokensFound then
      recs ++ [recUnverified (analysis.tokensFound - analysis.verifiedOnChains)]
    else recs
  let recs := if analysis.verifiedOnChains = 0 then recs ++ [recNoVerified] else recs
  let recs :=
    if 0 < analysis.bridgeIndicators.length then recs ++ [recBridge] else recs
  let lowRiskEverywhere :=
    decide (analysis.highRiskOnChains = 0) && decide (analysis.mediumRiskOnChains ≤ 1)
  let recs :=
    if analysis.tokensFound = 0 then recs ++ [recNotFound]
    else if analysis.tokensFound = 1 then recs ++ [recSingleChain]
    else if lowRiskEverywhere then recs ++ [recSafeAllChains]
    else recs
  recs

/-- Name of an undetected standard. -/
def unknownTypeName : String := "Unknown"

/-- Cross-chain orchestrator (`verifyTokenCrossChain`, `multiChainVerifier.ts`
lines 389-471).  Note the source filters the requested chain ids down to the
supported ones before fanning out, so unsupported chains are absent from the
result list.  The wrapped-version loop follows the source's optional-chaining
semantics: a record without analysis compares `undefined !== "Unknown"` as
true and then pattern-matches the empty string. -/
def verifyTokenCrossChain (tokenAddress : String) (chainIds : Option (List Nat))
    (analyze : Nat → Except String TokenAnalysisResult) (timestamp : String) :
    CrossChainTokenInfo :=
  let normalizedAddress := jsToLower tokenAddress
  let targetChains := chainIds.getD DEFAULT_CHAIN_IDS
  let chainResults := analyzeTokenOnMultipleChains normalizedAddress
    (targetChains.filter (fun c => (SUPPORTED_CHAINS.lookup c).isSome)) analyze
  let tokensFound := (chainResults.filter (fun r => r.tokenExists)).length
  let verifiedOnChains :=
    ((chainResults.filterMap (fun r => r.analysis)).filter
      (fun a => !a.riskAnalysis.unverifiedCode)).length
  let highRiskOnChains :=
    ((chainResults.filterMap (fun r => r.analysis)).filter
      (fun a => decide (a.riskLevel = RiskLevel.HIGH) || decide (a.riskLevel = RiskLevel.CRITICAL))).length
  let mediumRiskOnChains :=
    ((chainResults.filterMap (fun r => r.analysis)).filter
      (fun a => decide (a.riskLevel = RiskLevel.MEDIUM))).length
  let bridgeIndicators := detectBridgePatterns chainResults
  let wrappedVersions := chainResults.foldl (fun acc result =>
    let detectedType := (result.analysis.map (fun a => a.standardAnalysis.detectedType))
    if detectedType ≠ some unknownTypeName then
      match detectWrappedTokenPattern (detectedType.getD emptyBytecode) with
      | some w =>
        acc ++ [{ w with chain := result.chainId, wrappedAddress := result.tokenAddress }]
      | none => acc
    else acc) []
  let baseAnalysis : CrossChainTokenInfo :=
    { baseTokenAddress := normalizedAddress, baseChainId := 1,
      chainVerifications := chainResults, tokensFound := tokensFound,
      verifiedOnChains := verifiedOnChains, highRiskOnChains := highRiskOnChains,
      mediumRiskOnChains := mediumRiskOnChains, bridgeIndicators := bridgeIndicators,
      wrappedVersions := wrappedVersions, recommendations := [],
      analysisTimestamp := timestamp }
  { baseAnalysis with recommendations := generateCrossChainRecommendations baseAnalysis }

/-- Address used in the C4 scenario. -/
def c4Addr : String := "0xeee1"

/-- Error thrown by the failing analysis oracle of the C4 scenario. -/
def c4FailMsg : String := "Etherscan API error: HTTP 500"

/-- Oracle whose per-chain analysis always throws. -/
def c4FailAnalyze : Nat → Except String TokenAnalysisResult :=
  fun _ => Except.error c4FailMsg

/-- Timestamp constant of the C4 scenario. -/
def c4Timestamp : String := "2024-01-01"

/-- C4 counterexample: requesting unsupported chain 999 through
`verifyTokenCrossChain` yields an empty result list (the chain is omitted,
not reported with an error record), and a per-chain analysis failure yields a
record with `exists = false` but no error string. -/
theorem c4_counterexample_isolation :
    (verifyTokenCrossChain c4Addr (some [999]) c4FailAnalyze c4Timestamp).chainVerifications = []
    ∧ (analyzeTokenOnMultipleChains c4Addr [1] c4FailAnalyze).map (fun r => r.error) = [none]
    ∧ (analyzeTokenOnMultipleChains c4Addr [1] c4FailAnalyze).map (fun r => r.tokenExists) = [false] := by
  refine ⟨by decide, by decide, by decide⟩

/-- C4 (amended): `analyzeTokenOnMultipleChains` emits one record per
requested chain — an unsupported chain id yields `{exists: false,
error: "Unsupported chain"}`, and a failing per-chain analysis yields
`{exists: false}` with no error string — while `verifyTokenCrossChain`
filters unsupported chains out of the requested set before fanning out, so
they are omitted from its result list rather than reported. -/
theorem c4_per_chain_isolation_amended (addr : String) (chainIds : List Nat)
    (analyze : Nat → Except String TokenAnalysisResult) :
    (analyzeTokenOnMultipleChains addr chainIds analyze).length = chainIds.length
    ∧ (analyzeTokenOnMultipleChains addr chainIds analyze
        = chainIds.map (analyzeChainStep (jsToLower addr) analyze))
    ∧ (∀ cid, SUPPORTED_CHAINS.lookup cid = none →
        analyzeChainStep (jsToLower addr) analyze cid
          = { chainId := cid, chainName := chainFallbackName cid,
              tokenAddress := jsToLower addr, tokenExists := false,
              analysis := none, error := some msgUnsupportedChain })
    ∧ (∀ cid name e, SUPPORTED_CHAINS.lookup cid = some name →
        analyze cid = Except.error e →
        analyzeChainStep (jsToLower addr) analyze cid
          = { chainId := cid, chainName := name, tokenAddress := jsToLower addr,
              tokenExists := false, analysis := none, error := none })
    ∧ ∀ (ids : Option (List Nat)) (ts : String),
        (verifyTokenCrossChain addr ids analyze ts).chainVerifications
          = ((ids.getD DEFAULT_CHAIN_IDS).filter
              (fun c => (SUPPORTED_CHAINS.lookup c).isSome)).map
              (analyzeChainStep (jsToLower (jsToLower addr)) analyze) := by
  refine ⟨?_, rfl, ?_, ?_, ?_⟩
  · simp [analyzeTokenOnMultipleChains]
  · intro cid h
    unfold analyzeChainStep
    rw [h]
  · intro cid name e h1 h2
    unfold analyzeChainStep
    rw [h1, h2]
  · intro ids ts
    rfl

/-- Witness for C4 (amended) at unsupported chain 999 and a failing analysis
on chain 1. -/
theorem c4_per_chain_isolation_amended_witness :
    SUPPORTED_CHAINS.lookup 999 = none
    ∧ analyzeChainStep (jsToLower c4Addr) c4FailAnalyze 999
        = { chainId := 999, chainName := chainFallbackName 999,
            tokenAddress := jsToLower c4Addr, tokenExists := false,
            analysis := none, error := some msgUnsupportedChain }
    ∧ analyzeChainStep (jsToLower c4Addr) c4FailAnalyze 1
        = { chainId := 1, chainName := "Ethereum Mainnet",
            tokenAddress := jsToLower c4Addr, tokenExists := false,
            analysis := none, error := none } :=
  ⟨by decide,
   (c4_per_chain_isolation_amended c4Addr [] c4FailAnalyze).2.2.1 999 (by decide),
   (c4_per_chain_isolation_amended c4Addr [] c4FailAnalyze).2.2.2.1 1
     ("Ethereum Mainnet") c4FailMsg (by decide) rfl⟩

/-- Engine configuration (`VerificationEngineConfig`) after the constructor's
defaults are applied (`enableCaching: true`, `cacheExpiration: 3600000`,
`timeout: 30000`, `chainId: 1`). -/
structure VerificationEngineConfig where
  etherscanApiKey : String
  enableCaching : Bool
  cacheExpiration : Nat
  timeout : Nat
  chainId : Nat
deriving Repr, DecidableEq

/-- Verification request (`VerificationRequest`). -/
structure VerificationRequest where
  tokenAddress : String
  chainId : Option Nat := none
  crossChainVerification : Option Bool := none
  chainIds : Option (List Nat) := none
deriving Repr, DecidableEq

/-- Engine result (`VerificationEngineResult`).  The clock value stands for
the ISO timestamp, and the display-only `formattedReport` string is not part
of the embedding. -/
structure VerificationEngineResult where
  requestId : String
  timestamp : Nat
  request : VerificationRequest
  chainAnalysis : Option TokenAnalysisResult := none
  crossChainAnalysis : Option CrossChainTokenInfo := none
  decision : VerificationDecision
deriving Repr, DecidableEq

/-- Cache entry (`CachedResult`). -/
structure CachedResult where
  result : VerificationEngineResult
  timestamp : Nat
deriving Repr, DecidableEq

/-- Mutable state of a `VerificationEngine` instance: the keyed cache `Map`
and the request counter. -/
structure EngineState where
  cache : List (String × CachedResult)
  requestCounter : Nat
deriving Repr, DecidableEq

/-- JavaScript `v || d` on numbers: `0` and `undefined` are falsy. -/
def jsOrNat (v : Option Nat) (d : Nat) : Nat :=
  match v with
  | some n => if n = 0 then d else n
  | none => d

/-- JavaScript truthiness of an optional boolean (`v || false`). -/
def jsOrBool (v : Option Bool) : Bool :=
  v.getD false

/-- Rendering of a boolean into a template string. -/
def boolStr (b : Bool) : String :=
  if b then "true" else "false"

/-- Cache key (`getCacheKey`):
`` `${tokenAddress}:${chainId || config.chainId}:${crossChainVerification || false}` ``. -/
def getCacheKey (cfg : VerificationEngineConfig) (request : VerificationRequest) : String :=
  request.tokenAddress ++ ":" ++ toString (jsOrNat request.chainId cfg.chainId)
    ++ ":" ++ boolStr (jsOrBool request.crossChainVerification)

/-- Keyed lookup in the cache `Map`. -/
def cacheLookup (cache : List (String × CachedResult)) (k : String) : Option CachedResult :=
  cache.lookup k

/-- `Map.set`: replace the entry for the key. -/
def cacheInsert (cache : List (String × CachedResult)) (k : String) (v : CachedResult) :
    List (String × CachedResult) :=
  (k, v) :: cache.filter (fun p => p.1 != k)

/-- `Map.delete`. -/
def cacheDelete (cache : List (String × CachedResult)) (k : String) :
    List (String × CachedResult) :=
  cache.filter (fun p => p.1 != k)

/-- Effective TTL: `this.config.cacheExpiration || 3600000`. -/
def effectiveExpiration (cfg : VerificationEngineConfig) : Nat :=
  if cfg.cacheExpiration = 0 then 3600000 else cfg.cacheExpiration

/-- Cache read path (`getCachedResult`, lines 646-663): on an expired hit the
entry is deleted and the read misses; on a fresh hit the stored result is
returned verbatim.  Returns the possibly-updated cache alongside. -/
def getCachedResult (cfg : VerificationEngineConfig) (cache : List (String × CachedResult))
    (request : VerificationRequest) (now : Nat) :
    Option VerificationEngineResult × List (String × CachedResult) :=
  if !cfg.enableCaching then (none, cache)
  else
    match cacheLookup cache (getCacheKey cfg request) with
    | none => (none, cache)
    | some cached =>
      if effectiveExpiration cfg < now - cached.timestamp then
        (none, cacheDelete cache (getCacheKey cfg request))
      else
        (some cached.result, cache)

/-- Cache write path (`cacheResult`, lines 668-676). -/
def cacheResult (cfg : VerificationEngineConfig) (cache : List (String × CachedResult))
    (request : VerificationRequest) (result : VerificationEngineResult) (now : Nat) :
    List (String × CachedResult) :=
  if !cfg.enableCaching then cache
  else cacheInsert cache (getCacheKey cfg request) { result := result, timestamp := now }

/-- Request id generation (`generateRequestId`): increments the counter and
renders `req_<now>_<counter>`; returns the id and the new counter. -/
def generateRequestId (now : Nat) (counter : Nat) : String × Nat :=
  let counter := counter + 1
  ("req_" ++ toString now ++ "_" ++ toString counter, counter)

/-- Outcome of the two collaborator analyses a `verify` call performs:
`analyzeToken` and (when requested) `verifyTokenCrossChain`, each either
returning data or throwing. -/
structure AnalysisOracle where
  chainAnalysis : Except String TokenAnalysisResult
  crossChain : Except String CrossChainTokenInfo
deriving Repr

/-- Degradation message of the engine's fallback analysis object. -/
def msgAnalysisFailed : String := "Analysis failed"

/-- Fallback analysis object passed to `makeVerificationDecision` when no
chain analysis is available (`verify`, lines 739-779). -/
def failedAnalysisDefault (tokenAddress : String) (chainId : Nat) (timestamp : String) :
    TokenAnalysisResult :=
  { tokenAddress := tokenAddress, chainId := chainId, analysisTimestamp := timestamp,
    standardAnalysis :=
      { isERC20 := false, isERC721 := false, isERC1155 := false,
        detectedType := unknownTypeName, functionSelectors := [] },
    ownershipAnalysis :=
      { owner := none, ownerLabel := none, isMultisig := false, isProxy := false,
        proxyImplementation := none, ownershipRisks := [msgAnalysisFailed] },
    holderAnalysis :=
      { totalHolders := 0, topHolder := none, top5HoldersCombined := 0,
        top10HoldersCombined := 0, concentrationRisks := [ConcFinding.analysisFailed],
        isHighlyConcentrated := false },
    riskAnalysis :=
      { hasSelfdestruct := false, hasMinting := false, isPausable := false,
        hasBlacklist := false, proxyPatterns := [], unverifiedCode := true,
        risks := [msgAnalysisFailed], riskCount := 1 },
    overallScore := 0, riskLevel := RiskLevel.CRITICAL,
    recommendations := [msgAnalysisFailed], error := none }

/-- Reason string of the engine's catch-all failure path. -/
def reasonVerificationFailed (e : String) : String :=
  "Verification failed: " ++ e

/-- Single-entry-point verification (`VerificationEngine.verify`, lines
698-822) as a transition on the engine state: cache probe, request-id
generation, the two analyses (as the oracle's outcomes), decision, cache
write.  A thrown single-chain analysis without cross-chain verification
reaches the outer catch, which returns an uncached error result with a
second freshly generated request id. -/
def verify (cfg : VerificationEngineConfig) (st : EngineState)
    (request : VerificationRequest) (now : Nat) (oracle : AnalysisOracle) :
    VerificationEngineResult × EngineState :=
  let cachePair := getCachedResult cfg st.cache request now
  match cachePair.1 with
  | some cached =>
    let idc := generateRequestId now st.requestCounter
    ({ cached with requestId := idc.1 },
     { cache := cachePair.2, requestCounter := idc.2 })
  | none =>
    let idc := generateRequestId now st.requestCounter
    let chainId := jsOrNat request.chainId (if cfg.chainId = 0 then 1 else cfg.chainId)
    let crossFlag := jsOrBool request.crossChainVerification
    match oracle.chainAnalysis with
    | Except.ok analysis =>
      let crossChainAnalysis :=
        if crossFlag then
          match oracle.crossChain with
          | Except.ok c => some c
          | Except.error _ => none
        else none
      let decision := makeVerificationDecision analysis crossChainAnalysis
      let result : VerificationEngineResult :=
        { requestId := idc.1, timestamp := now, request := request,
          chainAnalysis := some analysis, crossChainAnalysis := crossChainAnalysis,
          decision := decision }
      (result,
       { cache := cacheResult cfg cachePair.2 request result now,
         requestCounter := idc.2 })
    | Except.error e =>
      if crossFlag then
        let crossChainAnalysis :=
          match oracle.crossChain with
          | Except.ok c => some c
          | Except.error _ => none
        let decision := makeVerificationDecision
          (failedAnalysisDefault request.tokenAddress chainId (toString now))
          crossChainAnalysis
        let result : VerificationEngineResult :=
          { requestId := idc.1, timestamp := now, request := request,
            chainAnalysis := none, crossChainAnalysis := crossChainAnalysis,
            decision := decision }
        (result,
         { cache := cacheResult cfg cachePair.2 request result now,
           requestCounter := idc.2 })
      else
        let idc2 := generateRequestId now idc.2
        ({ requestId := idc2.1, timestamp := now, request := request,
           chainAnalysis := none, crossChainAnalysis := none,
           decision :=
             { isSafe := false, canAutomate := false, requiresApproval := false,
               risks := [e], reason := reasonVerificationFailed e } },
         { cache := cachePair.2, requestCounter := idc2.2 })

theorem lookup_cacheInsert_self (cache : List (String × CachedResult)) (k : String)
    (v : CachedResult) : cacheLookup (cacheInsert cache k v) k = some v := by
  unfold cacheLookup cacheInsert
  simp [List.lookup]

theorem getCachedResult_of_lookup_none (cfg : VerificationEngineConfig)
    (cache : List (String × CachedResult)) (request : VerificationRequest) (now : Nat)
    (hc : cfg.enableCaching = true)
    (h : cacheLookup cache (getCacheKey cfg request) = none) :
    getCachedResult cfg cache request now = (none, cache) := by
  unfold getCachedResult
  rw [hc, if_neg (by decide), h]

theorem getCachedResult_hit_fresh (cfg : VerificationEngineConfig)
    (cache : List (String × CachedResult)) (request : VerificationRequest) (now : Nat)
    (c : CachedResult) (hc : cfg.enableCaching = true)
    (h : cacheLookup cache (getCacheKey cfg request) = some c)
    (hfresh : now - c.timestamp ≤ effectiveExpiration cfg) :
    getCachedResult cfg cache request now = (some c.result, cache) := by
  unfold getCachedResult
  rw [hc, if_neg (by decide), h]
  dsimp only
  rw [if_neg (not_lt.mpr hfresh)]

theorem getCachedResult_hit_stale (cfg : VerificationEngineConfig)
    (cache : List (String × CachedResult)) (request : VerificationRequest) (now : Nat)
    (c : CachedResult) (hc : cfg.enableCaching = true)
    (h : cacheLookup cache (getCacheKey cfg request) = some c)
    (hstale : effectiveExpiration cfg < now - c.timestamp) :
    getCachedResult cfg cache request now
      = (none, cacheDelete cache (getCacheKey cfg request)) := by
  unfold getCachedResult
  rw [hc, if_neg (by decide), h]
  dsimp only
  rw [if_pos hstale]

theorem cacheResult_lookup (cfg : VerificationEngineConfig)
    (cache : List (String × CachedResult)) (request : VerificationRequest)
    (r : VerificationEngineResult) (now : Nat) (hc : cfg.enableCaching = true) :
    cacheLookup (cacheResult cfg cache request r now) (getCacheKey cfg request)
      = some { result := r, timestamp := now } := by
  unfold cacheResult
  rw [hc, if_neg (by decide)]
  exact lookup_cacheInsert_self _ _ _

theorem verify_hit (cfg : VerificationEngineConfig) (st : EngineState)
    (request : VerificationRequest) (now : Nat) (oracle : AnalysisOracle)
    (c : CachedResult) (hc : cfg.enableCaching = true)
    (h : cacheLookup st.cache (getCacheKey cfg request) = some c)
    (hfresh : now - c.timestamp ≤ effectiveExpiration cfg) :
    (verify cfg st request now oracle).1.chainAnalysis = c.result.chainAnalysis
    ∧ (verify cfg st request now oracle).1.decision = c.result.decision := by
  have hg := getCachedResult_hit_fresh cfg st.cache request now c hc h hfresh
  simp only [verify, hg]
  exact ⟨trivial, trivial⟩

theorem verify_computes (cfg : VerificationEngineConfig) (st : EngineState)
    (request : VerificationRequest) (now : Nat) (oracle : AnalysisOracle)
    (a : TokenAnalysisResult) (c' : List (String × CachedResult))
    (hc : cfg.enableCaching = true)
    (hg : getCachedResult cfg st.cache request now = (none, c'))
    (ha : oracle.chainAnalysis = Except.ok a) :
    (verify cfg st request now oracle).1.chainAnalysis = some a
    ∧ cacheLookup (verify cfg st request now oracle).2.cache (getCacheKey cfg request)
        = some { result := (verify cfg st request now oracle).1, timestamp := now } := by
  simp only [verify, hg, ha]
  refine ⟨trivial, ?_⟩
  exact cacheResult_lookup cfg c' request _ now hc

theorem verify_computes_err_cross (cfg : VerificationEngineConfig) (st : EngineState)
    (request : VerificationRequest) (now : Nat) (oracle : AnalysisOracle)
    (e : String) (c' : List (String × CachedResult))
    (hc : cfg.enableCaching = true)
    (hg : getCachedResult cfg st.cache request now = (none, c'))
    (ha : oracle.chainAnalysis = Except.error e)
    (hcross : jsOrBool request.crossChainVerification = true) :
    (verify cfg st request now oracle).1.chainAnalysis = none
    ∧ cacheLookup (verify cfg st request now oracle).2.cache (getCacheKey cfg request)
        = some { result := (verify cfg st request now oracle).1, timestamp := now } := by
  simp only [verify, hg, ha, hcross, if_true]
  refine ⟨trivial, ?_⟩
  exact cacheResult_lookup cfg c' request _ now hc

theorem verify_error_nocross (cfg : VerificationEngineConfig) (st : EngineState)
    (request : VerificationRequest) (now : Nat) (oracle : AnalysisOracle)
    (e : String) (c' : List (String × CachedResult))
    (hg : getCachedResult cfg st.cache request now = (none, c'))
    (ha : oracle.chainAnalysis = Except.error e)
    (hcross : jsOrBool request.crossChainVerification = false) :
    verify cfg st request now oracle
      = ({ requestId := (generateRequestId now (generateRequestId now st.requestCounter).2).1,
           timestamp := now, request := request, chainAnalysis := none,
           crossChainAnalysis := none,
           decision :=
             { isSafe := false, canAutomate := false, requiresApproval := false,
               risks := [e], reason := reasonVerificationFailed e } },
         { cache := c',
           requestCounter := (generateRequestId now (generateRequestId now st.requestCounter).2).2 }) := by
  simp only [verify, hg, ha, hcross]
  rw [if_neg (by decide)]

/-- C9: with caching enabled and the key initially absent, a second verify
call for the same (tokenAddress, chainId, crossChainVerification) within the
cache expiration returns the same `chainAnalysis` and `decision` payloads as
the first (only the request id is regenerated), and a read whose age exceeds
the expiration misses — evicting any stored entry — and recomputes from the
collaborators. -/
theorem c9_cache_idempotence_and_expiry (cfg : VerificationEngineConfig)
    (st0 : EngineState) (request : VerificationRequest) (oracle : AnalysisOracle)
    (t1 t2 : Nat) (hc : cfg.enableCaching = true)
    (hmiss : cacheLookup st0.cache (getCacheKey cfg request) = none) :
    (t2 - t1 ≤ effectiveExpiration cfg →
      (verify cfg (verify cfg st0 request t1 oracle).2 request t2 oracle).1.chainAnalysis
        = (verify cfg st0 request t1 oracle).1.chainAnalysis
      ∧ (verify cfg (verify cfg st0 request t1 oracle).2 request t2 oracle).1.decision
        = (verify cfg st0 request t1 oracle).1.decision)
    ∧ (effectiveExpiration cfg < t2 - t1 →
      (getCachedResult cfg (verify cfg st0 request t1 oracle).2.cache request t2).1 = none
      ∧ ∀ (o2 : AnalysisOracle) (a2 : TokenAnalysisResult),
          o2.chainAnalysis = Except.ok a2 →
          (verify cfg (verify cfg st0 request t1 oracle).2 request t2 o2).1.chainAnalysis
            = some a2) := by
  have h1 : getCachedResult cfg st0.cache request t1 = (none, st0.cache) :=
    getCachedResult_of_lookup_none cfg st0.cache request t1 hc hmiss
  cases hca : oracle.chainAnalysis with
  | ok a =>
    have hm := verify_computes cfg st0 request t1 oracle a st0.cache hc h1 hca
    refine ⟨?_, ?_⟩
    · intro hfresh
      exact verify_hit cfg (verify cfg st0 request t1 oracle).2 request t2 oracle
        { result := (verify cfg st0 request t1 oracle).1, timestamp := t1 } hc hm.2 hfresh
    · intro hstale
      have hg2 := getCachedResult_hit_stale cfg (verify cfg st0 request t1 oracle).2.cache
        request t2 { result := (verify cfg st0 request t1 oracle).1, timestamp := t1 }
        hc hm.2 hstale
      refine ⟨by rw [hg2], ?_⟩
      intro o2 a2 ha2
      exact (verify_computes cfg (verify cfg st0 request t1 oracle).2 request t2 o2 a2
        _ hc hg2 ha2).1
  | error e =>
    cases hflag : jsOrBool request.crossChainVerification with
    | true =>
      have hm := verify_computes_err_cross cfg st0 request t1 oracle e st0.cache hc h1 hca hflag
      refine ⟨?_, ?_⟩
      · intro hfresh
        exact verify_hit cfg (verify cfg st0 request t1 oracle).2 request t2 oracle
          { result := (verify cfg st0 request t1 oracle).1, timestamp := t1 } hc hm.2 hfresh
      · intro hstale
        have hg2 := getCachedResult_hit_stale cfg (verify cfg st0 request t1 oracle).2.cache
          request t2 { result := (verify cfg st0 request t1 oracle).1, timestamp := t1 }
          hc hm.2 hstale
        refine ⟨by rw [hg2], ?_⟩
        intro o2 a2 ha2
        exact (verify_computes cfg (verify cfg st0 request t1 oracle).2 request t2 o2 a2
          _ hc hg2 ha2).1
    | false =>
      have hv1 := verify_error_nocross cfg st0 request t1 oracle e st0.cache h1 hca hflag
      have hcache1 : (verify cfg st0 request t1 oracle).2.cache = st0.cache := by
        rw [hv1]
      have h2 : getCachedResult cfg (verify cfg st0 request t1 oracle).2.cache request t2
          = (none, (verify cfg st0 request t1 oracle).2.cache) := by
        rw [hcache1]
        exact getCachedResult_of_lookup_none cfg st0.cache request t2 hc hmiss
      refine ⟨?_, ?_⟩
      · intro hfresh
        have hv2 := verify_error_nocross cfg (verify cfg st0 request t1 oracle).2 request t2
          oracle e _ h2 hca hflag
        rw [hv2, hv1]
        exact ⟨rfl, rfl⟩
      · intro hstale
        refine ⟨by rw [h2], ?_⟩
        intro o2 a2 ha2
        exact (verify_computes cfg (verify cfg st0 request t1 oracle).2 request t2 o2 a2
          _ hc h2 ha2).1

/-- Engine configuration of the concrete C9 scenario. -/
def c9Cfg : VerificationEngineConfig :=
  { etherscanApiKey := "key", enableCaching := true, cacheExpiration := 1000,
    timeout := 30000, chainId := 1 }

/-- Initial engine state of the concrete C9 scenario: empty cache. -/
def c9St0 : EngineState :=
  { cache := [], requestCounter := 0 }

/-- Request of the concrete C9 scenario. -/
def c9Request : VerificationRequest :=
  { tokenAddress := "0xfff1" }

/-- Analysis returned by the collaborators in the concrete C9 scenario. -/
def c9Analysis : TokenAnalysisResult :=
  { tokenAddress := "0xfff1", chainId := 1, analysisTimestamp := "2024-02-02",
    standardAnalysis :=
      { isERC20 := false, isERC721 := false, isERC1155 := false,
        detectedType := unknownTypeName, functionSelectors := [] },
    ownershipAnalysis :=
      { owner := none, ownerLabel := none, isMultisig := false, isProxy := false,
        proxyImplementation := none, ownershipRisks := [msgSingleOwner] },
    holderAnalysis :=
      { totalHolders := 2, topHolder := none, top5HoldersCombined := 40,
        top10HoldersCombined := 40, concentrationRisks := [],
        isHighlyConcentrated := false },
    riskAnalysis :=
      { hasSelfdestruct := false, hasMinting := false, isPausable := false,
        hasBlacklist := false, proxyPatterns := [], unverifiedCode := false,
        risks := [], riskCount := 0 },
    overallScore := 75, riskLevel := RiskLevel.MEDIUM, recommendations := [],
    error := none }

/-- Collaborator outcomes of the concrete C9 scenario. -/
def c9Oracle : AnalysisOracle :=
  { chainAnalysis := Except.ok c9Analysis, crossChain := Except.error c4FailMsg }

/-- Witness for C9: two verify calls 100 milliseconds apart (TTL 1000) return
equal chainAnalysis and decision payloads. -/
theorem c9_cache_idempotence_and_expiry_witness :
    (verify c9Cfg (verify c9Cfg c9St0 c9Request 100 c9Oracle).2 c9Request 200 c9Oracle).1.chainAnalysis
      = (verify c9Cfg c9St0 c9Request 100 c9Oracle).1.chainAnalysis
    ∧ (verify c9Cfg (verify c9Cfg c9St0 c9Request 100 c9Oracle).2 c9Request 200 c9Oracle).1.decision
      = (verify c9Cfg c9St0 c9Request 100 c9Oracle).1.decision :=
  (c9_cache_idempotence_and_expiry c9Cfg c9St0 c9Request c9Oracle 100 200
    (by decide) (by decide)).1 (by decide)
